import Mathlib

/-!
Shallow embedding of the update-check coordinator of the
spamwax/alfred-workflow crate (src/updater/mod.rs, src/updater/imp.rs).

The embedding mirrors the Rust source:

* `Version` models the external semver crate restricted to plain numeric
  `major.minor.patch` triples (pre-release and build identifiers play no
  role in this repository's tests or claims).
* Wall-clock instants (`chrono::DateTime<Utc>`) are modelled as `Int`
  (seconds); `Duration::seconds` is then plain integer comparison.
* Fallible Rust paths (`Result<_, failure::Error>`) are `Except UErr _`
  with `UErr := String` carrying the `err_msg` text.
* The one-shot mpsc channel is modelled by `ChanView`: `empty` when the
  worker has not sent yet (a non-blocking `try_recv` fails there), and
  `ready msg` once the single message is observable.
* I/O side effects are recorded as explicit traces (`Effect`, `FsOp`) so
  that statements such as "no network call happens" or "no rename is
  performed" are about the code's action sequence.
-/

set_option autoImplicit false

namespace AlfredUpdater

/-- Semantic version, modelling the external `semver::Version` restricted to
numeric triples (as used throughout this repository). -/
structure Version where
  major : Nat
  minor : Nat
  patch : Nat
deriving DecidableEq, Repr

/-- Strict order on versions, mirroring the lexicographic comparison of
`semver::Version` on numeric triples (`current_version() < &v` in the source). -/
def versionLt (a b : Version) : Bool :=
  decide (a.major < b.major ∨
    (a.major = b.major ∧ (a.minor < b.minor ∨
      (a.minor = b.minor ∧ a.patch < b.patch))))

/-- Splitting a character list on the dot separator (structural model of
splitting the version string on "."). -/
def splitOnDot (cs : List Char) : List (List Char) :=
  match cs with
  | [] => [[]]
  | c :: rest =>
    if c = '.' then [] :: splitOnDot rest
    else match splitOnDot rest with
      | [] => [[c]]
      | g :: gs => (c :: g) :: gs

/-- Decimal reading of one version component: defined (only) on nonempty
all-digit character sequences. -/
def decimalComponent? (cs : List Char) : Option Nat :=
  if cs.isEmpty then none
  else if cs.all (fun c => 48 ≤ c.toNat && c.toNat ≤ 57) then
    some (cs.foldl (fun n c => 10 * n + (c.toNat - 48)) 0)
  else none

/-- `Version::parse` of the external semver crate, restricted to the numeric
grammar `MAJOR.MINOR.PATCH`: three dot-separated decimal components. -/
def parseVersion (s : String) : Option Version :=
  match (splitOnDot s.data).map decimalComponent? with
  | [some a, some b, some c] => some ⟨a, b, c⟩
  | _ => none

/-- Urls are kept abstract as strings. -/
abbrev Url := String

/-- Error values (`failure::Error`), represented by their `err_msg` text. -/
abbrev UErr := String

/-- `UpdateInfo` of src/updater/imp.rs: version of the latest release known
from the releaser together with its download url.  Note the structure has no
timestamp field. -/
structure UpdateInfo where
  version : Version
  downloadable_url : Url
deriving DecidableEq, Repr

/-- `type ReleasePayloadResult = Result<Option<UpdateInfo>, Error>` -/
abbrev ReleasePayloadResult := Except UErr (Option UpdateInfo)

/-- Observable state of the one-shot channel at the moment of a receive:
`empty` when the worker has not sent its single message yet, `ready msg`
when the message can be received. -/
inductive ChanView
  | empty
  | ready (msg : ReleasePayloadResult)
deriving Repr

/-- `MPSCState` of src/updater/imp.rs: the cached first received payload and
the receiver end of the channel. -/
structure MPSCState where
  recvd_payload : Option ReleasePayloadResult
  rx : Option ChanView
deriving Repr

/-- The persisted-plus-session state of `Updater`/`UpdaterState`
(src/updater/imp.rs): current version, cached available release, last check
timestamp, check interval (seconds) and the worker slot. -/
structure Updater where
  current_version : Version
  avail_release : Option UpdateInfo
  last_check : Option Int
  update_interval : Int
  worker_state : Option MPSCState
deriving Repr

/-- `UPDATE_INTERVAL` of src/updater/mod.rs (24 hours in seconds). -/
def UPDATE_INTERVAL : Int := 24 * 60 * 60

/-- Coordinator-level side effects, recorded in order of execution. -/
inductive Effect
  | chanRead
  | networkCall
  | saveState
  | writeCache
  | readCache
  | spawnWorker
deriving DecidableEq, Repr

/-- `due_to_check` of src/updater/mod.rs: true when never checked, or when
strictly more than `update_interval` seconds have elapsed since `last_check`. -/
def due_to_check (u : Updater) (now : Int) : Bool :=
  match u.last_check with
  | none => true
  | some dt => decide (now - dt > u.update_interval)

/-- Final "is a newer release available" comparison used by both readiness
paths: present `avail_release` with version strictly above `current_version`. -/
def isNewerAvail (u : Updater) : Bool :=
  match u.avail_release with
  | some release => if versionLt u.current_version release.version then true else false
  | none => false

/-- `update_ready_async` of src/updater/imp.rs.  Inputs: the updater, the
`try_flag` (non-blocking vs blocking receive) and the current time.  Output:
the result, the updated state, and the effect trace. -/
def update_ready_async (u : Updater) (try_flag : Bool) (now : Int) :
    Except UErr Bool × Updater × List Effect :=
  match u.worker_state with
  | none => (.error "you need to use init() metheod first.", u, [])
  | some mpsc =>
    match mpsc.recvd_payload with
    | some _ =>
      -- payload already cached: skip the channel read, go to the comparison
      (.ok (isNewerAvail u), u, [])
    | none =>
      match mpsc.rx with
      | none => (.error "you need to use init() correctly!", u, [])
      | some ch =>
        match ch with
        | .empty =>
          -- try_recv fails on an empty channel; a blocking recv only returns
          -- without a message when the sender is gone
          (.error (if try_flag then "receiving on an empty channel"
                   else "receiving on a closed channel"), u, [.chanRead])
        | .ready msg =>
          match msg with
          | .ok update_info =>
            let u' : Updater :=
              { u with
                avail_release := update_info
                last_check := some now
                worker_state := some { mpsc with recvd_payload := some (.ok update_info) } }
            (.ok (isNewerAvail u'), u', [.chanRead, .saveState])
          | .error e =>
            -- state is saved regardless of the content of the message, then
            -- the error propagates; the received-payload cache stays empty
            let u' : Updater := { u with last_check := some now }
            (.error e, u', [.chanRead, .saveState])

/-- `update_ready_sync` of src/updater/imp.rs.  `rel` is the releaser's
response (`latest_release()`), `cache` the parsed content of the
`last_check_status.json` cache file. -/
def update_ready_sync (u : Updater) (now : Int)
    (rel : Except UErr (Version × Url))
    (cache : Except UErr (Option UpdateInfo)) :
    Except UErr Bool × Updater × List Effect :=
  if u.last_check = none then
    -- first time checking: just bump the timestamp, save, report false
    (.ok false, { u with last_check := some now }, [.saveState])
  else if due_to_check u now then
    match rel with
    | .error e => (.error e, u, [.networkCall])
    | .ok (v, url) =>
      let update_avail := versionLt u.current_version v
      let info : UpdateInfo := ⟨v, url⟩
      (.ok update_avail,
       { u with avail_release := some info, last_check := some now },
       [.networkCall, .writeCache, .saveState])
  else
    -- not due: consult the cache file; any read failure counts as false
    let b :=
      match cache with
      | .ok (some info) => if versionLt u.current_version info.version then true else false
      | .ok none => false
      | .error _ => false
    (.ok b, u, [.readCache])

/-- `init` of src/updater/mod.rs.  `cache` is the parsed content of the
`last_check_status_async.json` cache file (used only in the not-due branch).
In the due branch the spawned worker has not sent anything yet, so the
registered channel is `empty`. -/
def init (u : Updater) (now : Int) (cache : Except UErr (Option UpdateInfo)) :
    Updater × List Effect :=
  if u.last_check = none then
    let u' : Updater := { u with last_check := some now }
    ({ u' with worker_state := some ⟨none, some (.ready (.ok none))⟩ }, [.saveState])
  else if due_to_check u now then
    ({ u with worker_state := some ⟨none, some .empty⟩ }, [.spawnWorker])
  else
    let status : ReleasePayloadResult :=
      match cache with
      | .ok (some info) =>
        if versionLt u.current_version info.version then .ok (some info) else .ok none
      | .ok none => .ok none
      | .error _ => .ok none
    ({ u with worker_state := some ⟨none, some (.ready status)⟩ }, [.readCache])

/-- `update_ready` of src/updater/mod.rs: synchronous fallback when no worker
was ever registered, otherwise the blocking async path. -/
def update_ready (u : Updater) (now : Int)
    (rel : Except UErr (Version × Url))
    (cache : Except UErr (Option UpdateInfo)) :
    Except UErr Bool × Updater × List Effect :=
  match u.worker_state with
  | none => update_ready_sync u now rel cache
  | some _ => update_ready_async u false now

/-- `try_update_ready` of src/updater/mod.rs: synchronous fallback when no
worker was ever registered, otherwise the non-blocking async path. -/
def try_update_ready (u : Updater) (now : Int)
    (rel : Except UErr (Version × Url))
    (cache : Except UErr (Option UpdateInfo)) :
    Except UErr Bool × Updater × List Effect :=
  match u.worker_state with
  | none => update_ready_sync u now rel cache
  | some _ => update_ready_async u true now

/-- The serde-persisted fields of `UpdaterState`; `update_interval` and
`worker_state` carry `#[serde(skip)]` and are not loaded from disk. -/
structure SavedState where
  current_version : Version
  avail_release : Option UpdateInfo
  last_check : Option Int
deriving Repr

/-- `load_or_new` of src/updater/imp.rs.  `loaded` is the outcome of `load()`
(`none` when the data file is missing or unreadable), `env_version` the
optional `alfred_workflow_version` environment string. -/
def load_or_new (loaded : Option SavedState) (env_version : Option String) :
    Except UErr Updater × List Effect :=
  match loaded with
  | some saved =>
    -- overwrite the saved current_version only when the environment version
    -- parses and is semantically newer; parse failures are dropped by .ok()
    let env_ver := env_version.bind (fun v => parseVersion v)
    let cv :=
      match env_ver with
      | some v => if versionLt saved.current_version v then v else saved.current_version
      | none => saved.current_version
    (.ok { current_version := cv
           avail_release := saved.avail_release
           last_check := saved.last_check
           update_interval := UPDATE_INTERVAL
           worker_state := none }, [])
  | none =>
    match env_version with
    | none =>
      (.ok { current_version := ⟨0, 0, 0⟩
             avail_release := none
             last_check := none
             update_interval := UPDATE_INTERVAL
             worker_state := none }, [.saveState])
    | some s =>
      match parseVersion s with
      | none => (.error "version parse error", [])
      | some v =>
        (.ok { current_version := v
               avail_release := none
               last_check := none
               update_interval := UPDATE_INTERVAL
               worker_state := none }, [.saveState])

/-- `set_version` of src/updater/mod.rs.  The Rust method panics when the
string does not parse as a semantic version; the panic is modelled as `none`. -/
def set_version (u : Updater) (version : String) : Option Updater :=
  match parseVersion version with
  | none => none
  | some v => some { u with current_version := v }

/-- ASCII letter-or-digit test (`char::is_ascii_alphanumeric`). -/
def isAsciiAlphanumericChar (c : Char) : Bool :=
  (97 ≤ c.toNat && c.toNat ≤ 122) ||
  (65 ≤ c.toNat && c.toNat ≤ 90) ||
  (48 ≤ c.toNat && c.toNat ≤ 57)

/-- The filename sanitization of `build_data_fn`: every character of the
workflow name that is not an ASCII letter or digit becomes an underscore. -/
def sanitizeWorkflowName (s : String) : String :=
  String.mk (s.data.map (fun c => if isAsciiAlphanumericChar c then c else '_'))

/-- Placeholder used by `build_data_fn` when `alfred_workflow_name` is absent. -/
def DEFAULT_WORKFLOW_NAME : String := "YouForgotTo/フ:NameYourOwnWork\x7dflowッ"

/-- `build_data_fn` of src/updater/imp.rs: path of the persisted updater
state file, from the environment-supplied name, data directory and uid. -/
def build_data_fn (name data_dir uid : Option String) : Except UErr String :=
  let workflow_name := sanitizeWorkflowName (name.getD DEFAULT_WORKFLOW_NAME)
  match data_dir with
  | none => .error "missing env variable for data dir"
  | some data_path =>
    match uid with
    | none => .error "missing env variable for uid"
    | some u => .ok (data_path ++ "/" ++ u ++ "-" ++ workflow_name ++ "-updater.json")

/-- Filesystem operations, recorded in order of execution. -/
inductive FsOp
  | createDirAll (p : String)
  | create (p : String)
  | write (p : String)
  | rename (src dst : String)
  | remove (p : String)
deriving DecidableEq, Repr

/-- Trace of `save` (src/updater/imp.rs): ensure the parent directory,
`File::create` the data file, serialize into it; on failure of the
create-and-write step, `remove_file` the data file itself. -/
def saveOps (data_file_path parent : String) (write_ok : Bool) : List FsOp :=
  if write_ok then
    [FsOp.createDirAll parent, FsOp.create data_file_path, FsOp.write data_file_path]
  else
    [FsOp.createDirAll parent, FsOp.create data_file_path, FsOp.remove data_file_path]

/-- Trace of `write_last_check_status` (src/updater/imp.rs): `File::create`
the cache file and serialize into it; on failure, `remove_file` the cache
file itself. -/
def write_last_check_status_ops (p : String) (write_ok : Bool) : List FsOp :=
  if write_ok then [FsOp.create p, FsOp.write p]
  else [FsOp.create p, FsOp.remove p]

/-- Modelled from the spec: the claimed write-temp-then-atomic-rename
pattern — some temporary path distinct from the target receives the content
and is then renamed over the target. -/
def usesTempThenRename (ops : List FsOp) (target : String) : Prop :=
  ∃ tmp, tmp ≠ target ∧ FsOp.write tmp ∈ ops ∧ FsOp.rename tmp target ∈ ops

/-- `download_latest` of src/updater/mod.rs.  Fails before any file
operation when no release info is cached; otherwise (HTTP success assumed by
`http_ok`) it creates `latest_release_<uid>.alfredworkflow` in the cache
directory, removing the partial file when the body copy fails. -/
def download_latest (u : Updater) (cache_dir uid : Option String)
    (http_ok write_ok : Bool) : Except UErr String × List FsOp :=
  match u.avail_release with
  | none => (.error "no release info avail yet", [])
  | some _ =>
    if http_ok then
      match cache_dir with
      | none => (.error "missing env variable for cache dir", [])
      | some cdir =>
        match uid with
        | none => (.error "missing env variable for uid", [])
        | some uidv =>
          let fn := cdir ++ "/" ++ "latest_release_" ++ uidv ++ ".alfredworkflow"
          if write_ok then (.ok fn, [FsOp.create fn, FsOp.write fn])
          else (.error "file error", [FsOp.create fn, FsOp.remove fn])
    else (.error "http error", [])

/-- Persisted state used for the C7 counterexample. -/
def savedC7 : SavedState :=
  { current_version := ⟨0, 10, 5⟩, avail_release := none, last_check := none }

/-- Coordinator state used for the C5 counterexample: stored last_check 100,
resolved channel carrying a release payload, queried at time 50. -/
def uC5 : Updater :=
  { current_version := ⟨0, 10, 5⟩
    avail_release := none
    last_check := some 100
    update_interval := 86400
    worker_state := some ⟨none, some (.ready (.ok (some
      ⟨⟨0, 11, 1⟩, "https://example.com/w.alfredworkflow"⟩)))⟩ }

/-- Fresh-install coordinator state used by the C1 witness. -/
def uC1w : Updater :=
  { current_version := ⟨0, 10, 5⟩
    avail_release := none
    last_check := none
    update_interval := UPDATE_INTERVAL
    worker_state := none }

/-- Coordinator state used by the C2 witness: resolved payload cached, and
the cached release version equals the current version 0.11.1. -/
def uC2w : Updater :=
  { current_version := ⟨0, 11, 1⟩
    avail_release := some ⟨⟨0, 11, 1⟩, "https://example.com/b"⟩
    last_check := some 0
    update_interval := UPDATE_INTERVAL
    worker_state := some ⟨some (.ok (some ⟨⟨0, 11, 1⟩, "https://example.com/b"⟩)),
                          some (.ready (.ok none))⟩ }

/-- Coordinator state used by the C4 witness: pending check whose channel
carries a successful payload for release 0.11.1. -/
def uC4w : Updater :=
  { current_version := ⟨0, 10, 5⟩
    avail_release := none
    last_check := some 0
    update_interval := 0
    worker_state := some ⟨none, some (.ready (.ok (some
      ⟨⟨0, 11, 1⟩, "https://example.com/c"⟩)))⟩ }

/-- Coordinator state used by C9: no release info cached yet. -/
def uC9none : Updater :=
  { current_version := ⟨0, 0, 1⟩
    avail_release := none
    last_check := some 0
    update_interval := 0
    worker_state := none }

/-- Coordinator state used by C9: release info cached after a ready check. -/
def uC9some : Updater :=
  { current_version := ⟨0, 0, 1⟩
    avail_release := some ⟨⟨0, 11, 1⟩, "http://127.0.0.1:1234/w.alfredworkflow"⟩
    last_check := some 0
    update_interval := 0
    worker_state := none }

/-- Coordinator state used by the C10 witness: pending check whose channel
carries a worker error. -/
def uC10w : Updater :=
  { current_version := ⟨0, 10, 5⟩
    avail_release := none
    last_check := some 0
    update_interval := 0
    worker_state := some ⟨none, some (.ready (.error "http error 400"))⟩ }

/-! Theorems -/

theorem versionLt_irrefl (v : Version) : versionLt v v = false := by
  simp [versionLt]

/-- C8: `due_to_check()` returns true if and only if `last_check` is `None`
or the wall-clock duration since `last_check` strictly exceeds the configured
check interval in seconds; it is a pure function of the persisted state and
the current time. -/
theorem C8_due_to_check_iff (u : Updater) (now : Int) :
    due_to_check u now = true ↔
      u.last_check = none ∨
        ∃ dt, u.last_check = some dt ∧ now - dt > u.update_interval := by
  cases h : u.last_check with
  | none => simp [due_to_check, h]
  | some dt => simp [due_to_check, h]

/-- C3: when loading the persisted state succeeds and the environment version
string parses, `current_version` is overwritten with the environment version
exactly when it is strictly greater than the persisted one; an equal or older
environment version leaves the persisted `current_version` unchanged. -/
theorem C3_env_version_override (saved : SavedState) (s : String) (v : Version)
    (hp : parseVersion s = some v) :
    ∃ u : Updater, (load_or_new (some saved) (some s)).1 = .ok u ∧
      (versionLt saved.current_version v = true → u.current_version = v) ∧
      (versionLt saved.current_version v = false →
        u.current_version = saved.current_version) := by
  refine ⟨{ current_version := if versionLt saved.current_version v then v
              else saved.current_version
            avail_release := saved.avail_release
            last_check := saved.last_check
            update_interval := UPDATE_INTERVAL
            worker_state := none }, ?_, ?_, ?_⟩
  · simp [load_or_new, hp]
  · intro h; simp [h]
  · intro h; simp [h]

/-- C3 witness: persisted 0.10.5 with environment version 0.11.1 gives
current_version 0.11.1. -/
theorem C3_env_version_override_witness :
    ∃ u : Updater,
      (load_or_new
        (some { current_version := ⟨0, 10, 5⟩, avail_release := none, last_check := none })
        (some "0.11.1")).1 = .ok u ∧
      (versionLt ⟨0, 10, 5⟩ ⟨0, 11, 1⟩ = true → u.current_version = ⟨0, 11, 1⟩) ∧
      (versionLt ⟨0, 10, 5⟩ ⟨0, 11, 1⟩ = false → u.current_version = ⟨0, 10, 5⟩) :=
  C3_env_version_override
    { current_version := ⟨0, 10, 5⟩, avail_release := none, last_check := none }
    "0.11.1" ⟨0, 11, 1⟩ rfl

/-- C7 counterexample: with a successfully loaded persisted state and the
present but unparseable environment version string "abc", construction is
not a hard error — `load_or_new` silently keeps the persisted
current_version 0.10.5 (the parse failure is discarded by `.ok()`). -/
theorem C7_counterexample :
    parseVersion "abc" = none ∧
    (load_or_new (some savedC7) (some "abc")).1 =
      .ok { current_version := ⟨0, 10, 5⟩
            avail_release := none
            last_check := none
            update_interval := UPDATE_INTERVAL
            worker_state := none } :=
  ⟨rfl, rfl⟩

/-- C7 amended: at fresh construction (no loadable state) a present but
unparseable version string is a hard error and only a wholly absent string
defaults to 0.0.0; `set_version` is a hard error on an unparseable string;
but when a persisted state loads successfully, an unparseable environment
string is silently ignored and the persisted current_version kept. -/
theorem C7_hard_error_boundaries :
    (∀ s : String, parseVersion s = none →
      (load_or_new none (some s)).1 = .error "version parse error") ∧
    (∃ u : Updater, (load_or_new none none).1 = .ok u ∧
      u.current_version = ⟨0, 0, 0⟩) ∧
    (∀ (u : Updater) (s : String), parseVersion s = none → set_version u s = none) ∧
    (∀ (saved : SavedState) (s : String), parseVersion s = none →
      (load_or_new (some saved) (some s)).1 =
        .ok { current_version := saved.current_version
              avail_release := saved.avail_release
              last_check := saved.last_check
              update_interval := UPDATE_INTERVAL
              worker_state := none }) := by
  refine ⟨?_, ⟨_, rfl, rfl⟩, ?_, ?_⟩
  · intro s hp
    simp [load_or_new, hp]
  · intro u s hp
    simp [set_version, hp]
  · intro saved s hp
    simp [load_or_new, hp]

/-- C7 amended witness: concrete instances of the hard-error and
silent-ignore branches at the unparseable string "abc". -/
theorem C7_hard_error_boundaries_witness :
    (load_or_new none (some "abc")).1 = .error "version parse error" ∧
    set_version { current_version := ⟨0, 10, 5⟩, avail_release := none,
                  last_check := none, update_interval := UPDATE_INTERVAL,
                  worker_state := none } "abc" = none :=
  ⟨C7_hard_error_boundaries.1 "abc" rfl,
   C7_hard_error_boundaries.2.2.1
     { current_version := ⟨0, 10, 5⟩, avail_release := none,
       last_check := none, update_interval := UPDATE_INTERVAL,
       worker_state := none } "abc" rfl⟩

/-- C5 counterexample: the stored last_check is 100 and the query runs at
time 50, so no payload timestamp can be more recent than the current
last_check; the claim then requires last_check to stay 100, but the code
overwrites it with the current time 50 (an older instant). -/
theorem C5_counterexample :
    (update_ready_async uC5 false 50).2.1.last_check = some 50 ∧
      ((50 : Int) < 100) ∧ some (50 : Int) ≠ some (100 : Int) :=
  ⟨rfl, by decide, by decide⟩

/-- C5 amended: on receiving an Ok payload the coordinator replaces
avail_release with the payload outright (last writer wins) and sets
last_check to the current wall-clock time unconditionally — `UpdateInfo`
carries no fetched_at timestamp at all. -/
theorem C5_merge_sets_now (u : Updater) (mpsc : MPSCState) (p : Option UpdateInfo)
    (hw : u.worker_state = some mpsc) (hr : mpsc.recvd_payload = none)
    (hx : mpsc.rx = some (.ready (.ok p))) (tf : Bool) (now : Int) :
    (update_ready_async u tf now).2.1.avail_release = p ∧
      (update_ready_async u tf now).2.1.last_check = some now := by
  obtain ⟨cv, ar, lc, ui, ws⟩ := u
  change ws = some mpsc at hw
  subst hw
  obtain ⟨rp, rx⟩ := mpsc
  change rp = none at hr
  subst hr
  change rx = some (.ready (.ok p)) at hx
  subst hx
  exact ⟨rfl, rfl⟩

/-- C5 amended witness: the counterexample state at time 50 ends with the
payload as avail_release and last_check = 50. -/
theorem C5_merge_sets_now_witness :
    (update_ready_async uC5 false 50).2.1.avail_release =
      some ⟨⟨0, 11, 1⟩, "https://example.com/w.alfredworkflow"⟩ ∧
    (update_ready_async uC5 false 50).2.1.last_check = some 50 :=
  C5_merge_sets_now uC5
    ⟨none, some (.ready (.ok (some
      ⟨⟨0, 11, 1⟩, "https://example.com/w.alfredworkflow"⟩)))⟩
    (some ⟨⟨0, 11, 1⟩, "https://example.com/w.alfredworkflow"⟩)
    rfl rfl rfl false 50

/-- C6 counterexample: neither `save` nor `write_last_check_status` ever
writes a temporary file and renames it over the target: their traces contain
no rename at all, the target itself is created directly. -/
theorem C6_counterexample :
    ¬ usesTempThenRename (saveOps "/data/state-updater.json" "/data" true)
        "/data/state-updater.json" ∧
    ¬ usesTempThenRename
        (write_last_check_status_ops "/data/last_check_status.json" true)
        "/data/last_check_status.json" := by
  constructor
  · rintro ⟨tmp, -, -, hr⟩
    simp [saveOps] at hr
  · rintro ⟨tmp, -, -, hr⟩
    simp [write_last_check_status_ops] at hr

/-- C6 amended: `save` and `write_last_check_status` write directly to the
final path (create the target, then write it); on failure they delete the
possibly partially written target itself; no rename operation is ever
performed, so the pattern is delete-on-failure, not temp-then-atomic-rename. -/
theorem C6_direct_write_no_rename (p parent : String) :
    saveOps p parent true =
      [FsOp.createDirAll parent, FsOp.create p, FsOp.write p] ∧
    saveOps p parent false =
      [FsOp.createDirAll parent, FsOp.create p, FsOp.remove p] ∧
    write_last_check_status_ops p true = [FsOp.create p, FsOp.write p] ∧
    write_last_check_status_ops p false = [FsOp.create p, FsOp.remove p] ∧
    (∀ (src dst : String) (b : Bool),
      FsOp.rename src dst ∉ saveOps p parent b ∧
      FsOp.rename src dst ∉ write_last_check_status_ops p b) := by
  refine ⟨rfl, rfl, rfl, rfl, ?_⟩
  intro src dst b
  cases b <;> constructor <;> simp [saveOps, write_last_check_status_ops]

/-- C1: for a fresh install (last_check = none, no worker registered yet),
the first readiness query — update_ready or try_update_ready, with or
without a prior init, whatever the release source would report — returns
Ok false, makes no network call, and persists the state with last_check set
to the current (query) time. -/
theorem C1_fresh_install_first_query (u : Updater)
    (hlc : u.last_check = none) (hw : u.worker_state = none)
    (rel : Except UErr (Version × Url))
    (cache cache2 : Except UErr (Option UpdateInfo))
    (now now2 : Int) (tf : Bool) :
    ((update_ready u now rel cache).1 = .ok false ∧
      (update_ready u now rel cache).2.1.last_check = some now ∧
      Effect.saveState ∈ (update_ready u now rel cache).2.2 ∧
      Effect.networkCall ∉ (update_ready u now rel cache).2.2) ∧
    ((try_update_ready u now rel cache).1 = .ok false ∧
      (try_update_ready u now rel cache).2.1.last_check = some now) ∧
    ((update_ready_async (init u now cache2).1 tf now2).1 = .ok false ∧
      (update_ready_async (init u now cache2).1 tf now2).2.1.last_check = some now2 ∧
      Effect.saveState ∈ (update_ready_async (init u now cache2).1 tf now2).2.2 ∧
      Effect.networkCall ∉ (update_ready_async (init u now cache2).1 tf now2).2.2) := by
  obtain ⟨cv, ar, lc, ui, ws⟩ := u
  change lc = none at hlc
  subst hlc
  change ws = none at hw
  subst hw
  refine ⟨⟨rfl, rfl, ?_, ?_⟩, ⟨rfl, rfl⟩, rfl, rfl, ?_, ?_⟩
  · show Effect.saveState ∈ [Effect.saveState]
    decide
  · show Effect.networkCall ∉ [Effect.saveState]
    decide
  · show Effect.saveState ∈ [Effect.chanRead, Effect.saveState]
    decide
  · show Effect.networkCall ∉ [Effect.chanRead, Effect.saveState]
    decide

/-- C1 witness: a concrete fresh install at version 0.10.5, queried at times
10 and 20, with a release source that would report version 99.0.0. -/
theorem C1_fresh_install_first_query_witness :
    ((update_ready uC1w 10 (.ok (⟨99, 0, 0⟩, "https://example.com/a")) (.ok none)).1
        = .ok false ∧
      (update_ready uC1w 10 (.ok (⟨99, 0, 0⟩, "https://example.com/a")) (.ok none)).2.1.last_check
        = some 10 ∧
      Effect.saveState ∈
        (update_ready uC1w 10 (.ok (⟨99, 0, 0⟩, "https://example.com/a")) (.ok none)).2.2 ∧
      Effect.networkCall ∉
        (update_ready uC1w 10 (.ok (⟨99, 0, 0⟩, "https://example.com/a")) (.ok none)).2.2) ∧
    ((try_update_ready uC1w 10 (.ok (⟨99, 0, 0⟩, "https://example.com/a")) (.ok none)).1
        = .ok false ∧
      (try_update_ready uC1w 10 (.ok (⟨99, 0, 0⟩, "https://example.com/a")) (.ok none)).2.1.last_check
        = some 10) ∧
    ((update_ready_async (init uC1w 10 (.ok none)).1 true 20).1 = .ok false ∧
      (update_ready_async (init uC1w 10 (.ok none)).1 true 20).2.1.last_check = some 20 ∧
      Effect.saveState ∈ (update_ready_async (init uC1w 10 (.ok none)).1 true 20).2.2 ∧
      Effect.networkCall ∉ (update_ready_async (init uC1w 10 (.ok none)).1 true 20).2.2) :=
  C1_fresh_install_first_query uC1w rfl rfl
    (.ok (⟨99, 0, 0⟩, "https://example.com/a")) (.ok none) (.ok none) 10 20 true

/-- C2: a readiness query that reaches the final comparison returns Ok of a
boolean that is true iff avail_release is present with a version strictly
greater than current_version; absence of a cached release gives Ok false
(never an error), and a remote version equal to current_version gives false.
The synchronous network branch computes the same strict comparison against
the freshly fetched version. -/
theorem C2_final_comparison (u : Updater) (mpsc : MPSCState)
    (pr : ReleasePayloadResult) (hw : u.worker_state = some mpsc)
    (hc : mpsc.recvd_payload = some pr) (tf : Bool) (now : Int) :
    (∃ b : Bool, (update_ready_async u tf now).1 = .ok b ∧
      (b = true ↔ ∃ r, u.avail_release = some r ∧
        versionLt u.current_version r.version = true) ∧
      (u.avail_release = none → b = false) ∧
      (∀ r, u.avail_release = some r → r.version = u.current_version → b = false)) ∧
    (∀ (u2 : Updater) (t : Int) (v : Version) (url : Url)
        (cache : Except UErr (Option UpdateInfo)),
      u2.last_check = some t → due_to_check u2 now = true →
      (update_ready_sync u2 now (.ok (v, url)) cache).1 =
        .ok (versionLt u2.current_version v)) := by
  constructor
  · obtain ⟨cv, ar, lc, ui, ws⟩ := u
    change ws = some mpsc at hw
    subst hw
    obtain ⟨rp, rx⟩ := mpsc
    change rp = some pr at hc
    subst hc
    refine ⟨isNewerAvail ⟨cv, ar, lc, ui, some ⟨some pr, rx⟩⟩, rfl, ?_, ?_, ?_⟩
    · cases ar with
      | none => simp [isNewerAvail]
      | some r =>
        cases hvb : versionLt cv r.version with
        | false => simp [isNewerAvail, hvb]
        | true => simp [isNewerAvail, hvb]
    · intro har
      change ar = none at har
      subst har
      rfl
    · intro r har heq
      change ar = some r at har
      subst har
      change r.version = cv at heq
      simp [isNewerAvail, heq, versionLt_irrefl]
  · intro u2 t v url cache h1 h2
    obtain ⟨cv2, ar2, lc2, ui2, ws2⟩ := u2
    change lc2 = some t at h1
    subst h1
    simp [update_ready_sync, h2]

/-- C2 witness: a coordinator whose cached payload is resolved, holding a
release with version equal to its current version 0.11.1, queried at time 5:
the comparison path yields false, and the synchronous branch instance also
holds. -/
theorem C2_final_comparison_witness :
    (∃ b : Bool, (update_ready_async uC2w true 5).1 = .ok b ∧
      (b = true ↔ ∃ r, uC2w.avail_release = some r ∧
        versionLt uC2w.current_version r.version = true) ∧
      (uC2w.avail_release = none → b = false) ∧
      (∀ r, uC2w.avail_release = some r → r.version = uC2w.current_version →
        b = false)) ∧
    (∀ (u2 : Updater) (t : Int) (v : Version) (url : Url)
        (cache : Except UErr (Option UpdateInfo)),
      u2.last_check = some t → due_to_check u2 5 = true →
      (update_ready_sync u2 5 (.ok (v, url)) cache).1 =
        .ok (versionLt u2.current_version v)) :=
  C2_final_comparison uC2w
    ⟨some (.ok (some ⟨⟨0, 11, 1⟩, "https://example.com/b"⟩)), some (.ready (.ok none))⟩
    (.ok (some ⟨⟨0, 11, 1⟩, "https://example.com/b"⟩)) rfl rfl true 5

/-- C4: once a single init has been resolved by a successful readiness
query, every further readiness query returns the same boolean, leaves the
coordinator state unchanged, reads nothing further from the channel and
makes no network call: the first received payload, cached in the received
slot, short-circuits all later queries. -/
theorem C4_idempotent_after_success (u : Updater) (mpsc : MPSCState)
    (p : Option UpdateInfo) (hw : u.worker_state = some mpsc)
    (hr : mpsc.recvd_payload = none) (hx : mpsc.rx = some (.ready (.ok p)))
    (tf tf' : Bool) (now now' : Int) :
    (update_ready_async (update_ready_async u tf now).2.1 tf' now').1 =
        (update_ready_async u tf now).1 ∧
    (update_ready_async (update_ready_async u tf now).2.1 tf' now').2.1 =
        (update_ready_async u tf now).2.1 ∧
    Effect.chanRead ∉
      (update_ready_async (update_ready_async u tf now).2.1 tf' now').2.2 ∧
    Effect.networkCall ∉
      (update_ready_async (update_ready_async u tf now).2.1 tf' now').2.2 := by
  obtain ⟨cv, ar, lc, ui, ws⟩ := u
  change ws = some mpsc at hw
  subst hw
  obtain ⟨rp, rx⟩ := mpsc
  change rp = none at hr
  subst hr
  change rx = some (.ready (.ok p)) at hx
  subst hx
  refine ⟨rfl, rfl, ?_, ?_⟩
  · show Effect.chanRead ∉ ([] : List Effect)
    decide
  · show Effect.networkCall ∉ ([] : List Effect)
    decide

/-- C4 witness: after the successful resolution of a pending check carrying
release 0.11.1 against current version 0.10.5, a second query at a later
time returns the same result, same state, and no channel read. -/
theorem C4_idempotent_after_success_witness :
    (update_ready_async (update_ready_async uC4w false 30).2.1 true 40).1 =
        (update_ready_async uC4w false 30).1 ∧
    (update_ready_async (update_ready_async uC4w false 30).2.1 true 40).2.1 =
        (update_ready_async uC4w false 30).2.1 ∧
    Effect.chanRead ∉
      (update_ready_async (update_ready_async uC4w false 30).2.1 true 40).2.2 ∧
    Effect.networkCall ∉
      (update_ready_async (update_ready_async uC4w false 30).2.1 true 40).2.2 :=
  C4_idempotent_after_success uC4w
    ⟨none, some (.ready (.ok (some ⟨⟨0, 11, 1⟩, "https://example.com/c"⟩)))⟩
    (some ⟨⟨0, 11, 1⟩, "https://example.com/c"⟩) rfl rfl rfl false true 30 40

/-- C9, evaluated at the repository's own test environment (uid
workflow.B0AC54EC-601C and the unicode workflow name of
setup_workflow_env_vars): download before ready is the hard error
"no release info avail yet" with no file operation, but the after-ready
download is named from the workflow uid — not from the sanitized workflow
name that the test it_tests_download asserts. -/
theorem C9_download_filename_uses_uid :
    (download_latest uC9none (some "/cache") (some "workflow.B0AC54EC-601C")
        true true).1 = .error "no release info avail yet" ∧
    (download_latest uC9none (some "/cache") (some "workflow.B0AC54EC-601C")
        true true).2 = [] ∧
    (download_latest uC9some (some "/cache") (some "workflow.B0AC54EC-601C")
        true true).1 =
      .ok "/cache/latest_release_workflow.B0AC54EC-601C.alfredworkflow" ∧
    sanitizeWorkflowName "YouForgotTo/フ:Name好YouráOwnسWork\x7dflowッ" =
      "YouForgotTo___Name_Your_Own_Work_flow_" ∧
    ("/cache/latest_release_workflow.B0AC54EC-601C.alfredworkflow" : String) ≠
      "/cache/latest_release_" ++
        sanitizeWorkflowName "YouForgotTo/フ:Name好YouráOwnسWork\x7dflowッ" ++
        ".alfredworkflow" := by
  refine ⟨rfl, rfl, rfl, rfl, ?_⟩
  decide

/-- C10: when the channel delivers an Err message, the readiness query still
stamps last_check with the current time and saves the state before the error
propagates, leaves the received-payload slot empty, and due_to_check stays
false for the next full check interval. -/
theorem C10_error_still_persists (u : Updater) (mpsc : MPSCState) (e : UErr)
    (hw : u.worker_state = some mpsc) (hr : mpsc.recvd_payload = none)
    (hx : mpsc.rx = some (.ready (.error e))) (tf : Bool) (now : Int) :
    (update_ready_async u tf now).1 = .error e ∧
    (update_ready_async u tf now).2.1.last_check = some now ∧
    (update_ready_async u tf now).2.2 = [Effect.chanRead, Effect.saveState] ∧
    (∃ m : MPSCState, (update_ready_async u tf now).2.1.worker_state = some m ∧
      m.recvd_payload = none) ∧
    (∀ now2 : Int, now2 - now ≤ u.update_interval →
      due_to_check (update_ready_async u tf now).2.1 now2 = false) := by
  obtain ⟨cv, ar, lc, ui, ws⟩ := u
  change ws = some mpsc at hw
  subst hw
  obtain ⟨rp, rx⟩ := mpsc
  change rp = none at hr
  subst hr
  change rx = some (.ready (.error e)) at hx
  subst hx
  refine ⟨rfl, rfl, rfl, ⟨⟨none, some (.ready (.error e))⟩, rfl, rfl⟩, ?_⟩
  intro now2 h2
  change now2 - now ≤ ui at h2
  show decide (now2 - now > ui) = false
  simp
  omega

/-- C10 witness: a pending check that fails with "http error 400" at time
60: the error is returned, the state records last_check = 60 and is saved,
and the coordinator is not due to check again at time 60 + interval. -/
theorem C10_error_still_persists_witness :
    (update_ready_async uC10w false 60).1 = .error "http error 400" ∧
    (update_ready_async uC10w false 60).2.1.last_check = some 60 ∧
    (update_ready_async uC10w false 60).2.2 = [Effect.chanRead, Effect.saveState] ∧
    (∃ m : MPSCState, (update_ready_async uC10w false 60).2.1.worker_state = some m ∧
      m.recvd_payload = none) ∧
    (∀ now2 : Int, now2 - 60 ≤ uC10w.update_interval →
      due_to_check (update_ready_async uC10w false 60).2.1 now2 = false) :=
  C10_error_still_persists uC10w ⟨none, some (.ready (.error "http error 400"))⟩
    "http error 400" rfl rfl rfl false 60

end AlfredUpdater
